import Mathlib

/-!
Verification of the react agent loop, tool dispatch and prompt assembly of
this repository (src/agent/react_agent.py, src/services/model_service.py,
src/prompt/react_prompt.py, src/utils/general/helpers.py,
src/utils/general/tools.py, src/state/state_graph.py).

Python values that can appear in a decoded JSON document are modelled by the
inductive type Json below (Python None is Json.null, since json.loads maps
JSON null to None).  Python exceptions are modelled with Except: an
Except.error carries str(e) of the raised exception.  The external model
backend and the external json.loads are modelled as oracle parameters, so
every theorem quantifies over their behaviour.
-/

/-- Python value resulting from json.loads: null is Python None. -/
inductive Json where
  | null : Json
  | bool  (b : Bool) : Json
  | num (n : Int) : Json
  | str (s : String) : Json
  | arr (xs : List Json) : Json
  | obj (fields : List (String × Json)) : Json

/-- Python identity test v is None (only the None object is None). -/
def Json.isNull : Json → Bool
  | Json.null => true
  | _ => false

/-- First binding of a key in an association list, as Python dict lookup
(keys coming from json.loads are unique, so first = only). -/
def lookupFirst : List (String × Json) → String → Option Json
  | [], _ => none
  | (k, v) :: rest, key => if k = key then some v else lookupFirst rest key

/-- Python dict.get(key, None): the value bound to the key, or None. -/
def pyGet (fields : List (String × Json)) (key : String) : Json :=
  (lookupFirst fields key).getD Json.null

/-- Python truthiness of a decoded JSON value (bool(v)). -/
def jsonTruthy : Json → Bool
  | Json.null => false
  | Json.bool b => b
  | Json.num n => n != 0
  | Json.str s => s != ""
  | Json.arr xs => !xs.isEmpty
  | Json.obj fs => !fs.isEmpty

/-- Python type name of a decoded JSON value (type(v).__name__). -/
def pyTypeName : Json → String
  | Json.null => "NoneType"
  | Json.bool _ => "bool"
  | Json.num _ => "int"
  | Json.str _ => "str"
  | Json.arr _ => "list"
  | Json.obj _ => "dict"

/-- Python equality name == v where name is a str: true only when v is a
str with the same text (str never equals bool, int, list, dict or None). -/
def pyEqStr (name : String) : Json → Bool
  | Json.str s => name = s
  | _ => false

/-- Lowercase hexadecimal digit. -/
def hexDigit (n : Nat) : Char :=
  if n < 10 then Char.ofNat (48 + n) else Char.ofNat (87 + n)

/-- Four lowercase hex digits, as in Python \u escapes. -/
def hex4 (n : Nat) : String :=
  String.mk [hexDigit (n / 4096 % 16), hexDigit (n / 256 % 16),
             hexDigit (n / 16 % 16), hexDigit (n % 16)]

/-- The double quote character. -/
def quoteChar : Char := Char.ofNat 34

/-- The backslash character. -/
def backslashChar : Char := Char.ofNat 92

/-- The apostrophe character. -/
def aposChar : Char := Char.ofNat 39

/-- The opening curly brace character. -/
def lbraceChar : Char := Char.ofNat 123

/-- The closing curly brace character. -/
def rbraceChar : Char := Char.ofNat 125

/-- Escape of one character inside a Python json.dumps string literal with
the default ensure_ascii=True (non-ASCII characters become \uXXXX, with a
surrogate pair above U+FFFF). -/
def jsonEscapeChar (c : Char) : String :=
  if c = quoteChar then String.mk [backslashChar, quoteChar]
  else if c = backslashChar then String.mk [backslashChar, backslashChar]
  else if c = Char.ofNat 10 then String.mk [backslashChar, 'n']
  else if c = Char.ofNat 13 then String.mk [backslashChar, 'r']
  else if c = Char.ofNat 9 then String.mk [backslashChar, 't']
  else if c = Char.ofNat 8 then String.mk [backslashChar, 'b']
  else if c = Char.ofNat 12 then String.mk [backslashChar, 'f']
  else if c.toNat < 32 then String.mk [backslashChar, 'u'] ++ hex4 c.toNat
  else if c.toNat < 127 then String.mk [c]
  else if c.toNat ≤ 65535 then String.mk [backslashChar, 'u'] ++ hex4 c.toNat
  else
    String.mk [backslashChar, 'u'] ++ hex4 (55296 + (c.toNat - 65536) / 1024)
      ++ String.mk [backslashChar, 'u'] ++ hex4 (56320 + (c.toNat - 65536) % 1024)

/-- Python json.dumps rendering of a string (quoted, escaped). -/
def jsonDumpsStr (s : String) : String :=
  String.mk [quoteChar] ++ String.join (s.data.map jsonEscapeChar) ++ String.mk [quoteChar]

/-- Indentation of n spaces. -/
def spacesOf (n : Nat) : String := String.mk (List.replicate n ' ')

mutual

/-- Python json.dumps(v, indent=4) at a given current indentation level
(called with level 0 at the top). -/
def dumps : Json → Nat → String
  | Json.null, _ => "null"
  | Json.bool true, _ => "true"
  | Json.bool false, _ => "false"
  | Json.num n, _ => toString n
  | Json.str s, _ => jsonDumpsStr s
  | Json.arr [], _ => "[]"
  | Json.arr (x :: xs), lvl =>
      "[\n" ++ String.intercalate ",\n" (dumpsList (x :: xs) (lvl + 4))
        ++ "\n" ++ spacesOf lvl ++ "]"
  | Json.obj [], _ => String.mk [lbraceChar, rbraceChar]
  | Json.obj (f :: fs), lvl =>
      String.mk [lbraceChar] ++ "\n"
        ++ String.intercalate ",\n" (dumpsFields (f :: fs) (lvl + 4))
        ++ "\n" ++ spacesOf lvl ++ String.mk [rbraceChar]

/-- Rendered items of a JSON array, each on its own indented line. -/
def dumpsList : List Json → Nat → List String
  | [], _ => []
  | x :: xs, lvl => (spacesOf lvl ++ dumps x lvl) :: dumpsList xs lvl

/-- Rendered fields of a JSON object, each on its own indented line. -/
def dumpsFields : List (String × Json) → Nat → List String
  | [], _ => []
  | (k, v) :: fs, lvl =>
      (spacesOf lvl ++ jsonDumpsStr k ++ ": " ++ dumps v lvl) :: dumpsFields fs lvl

end

/-- Escape of one character inside a Python repr of a str using the chosen
quote character. -/
def pyReprEscChar (q : Char) (c : Char) : String :=
  if c = backslashChar then String.mk [backslashChar, backslashChar]
  else if c = q then String.mk [backslashChar, q]
  else if c = Char.ofNat 10 then String.mk [backslashChar, 'n']
  else if c = Char.ofNat 13 then String.mk [backslashChar, 'r']
  else if c = Char.ofNat 9 then String.mk [backslashChar, 't']
  else if c.toNat < 32 ∨ c.toNat = 127 then
    String.mk [backslashChar, 'x'] ++ String.mk [hexDigit (c.toNat / 16), hexDigit (c.toNat % 16)]
  else String.mk [c]

/-- Python repr of a str: apostrophe quotes, unless the text contains an
apostrophe and no double quote, in which case double quotes are used. -/
def pyReprStr (s : String) : String :=
  let q := if s.data.contains aposChar ∧ ¬ s.data.contains quoteChar then quoteChar else aposChar
  String.mk [q] ++ String.join (s.data.map (pyReprEscChar q)) ++ String.mk [q]

mutual

/-- Python repr of a decoded JSON value. -/
def pyRepr : Json → String
  | Json.null => "None"
  | Json.bool true => "True"
  | Json.bool false => "False"
  | Json.num n => toString n
  | Json.str s => pyReprStr s
  | Json.arr xs => "[" ++ String.intercalate ", " (pyReprList xs) ++ "]"
  | Json.obj fs =>
      String.mk [lbraceChar] ++ String.intercalate ", " (pyReprFields fs)
        ++ String.mk [rbraceChar]

/-- Reprs of the items of a list. -/
def pyReprList : List Json → List String
  | [] => []
  | x :: xs => pyRepr x :: pyReprList xs

/-- Reprs of the key/value pairs of a dict. -/
def pyReprFields : List (String × Json) → List String
  | [] => []
  | (k, v) :: fs => (pyReprStr k ++ ": " ++ pyRepr v) :: pyReprFields fs

end

/-- Python str of a decoded JSON value (str of a str is the text itself,
every other value prints as its repr). -/
def pyStr : Json → String
  | Json.str s => s
  | j => pyRepr j

/-- Whitespace stripped by Python str.strip in the values this program
produces (ASCII whitespace). -/
def isPySpace (c : Char) : Bool :=
  c = ' ' ∨ c = Char.ofNat 9 ∨ c = Char.ofNat 10 ∨ c = Char.ofNat 13
    ∨ c = Char.ofNat 11 ∨ c = Char.ofNat 12

/-- Python str.strip(). -/
def pyStrip (s : String) : String :=
  String.mk (((s.data.dropWhile isPySpace).reverse.dropWhile isPySpace).reverse)

/-- A tool as the react agent sees it: a named capability.  invoke models
langchain BaseTool.invoke; an Except.error carries str(e) of an exception
raised inside the capability.  (src/agent/react_agent.py uses only the name
and invoke of each tool; the langchain rendering of the catalog is the
external render parameter threaded below.) -/
structure Tool where
  name : String
  invoke : Json → Except String Json

/-- Embedding of get_tools_name (src/utils/general/tools.py): the list of
tool names. -/
def get_tools_name (tools : List Tool) : List String := tools.map Tool.name

/-- Python str of a list of str, as produced when str.format interpolates
the list returned by get_tools_name. -/
def pyStrList (names : List String) : String :=
  "[" ++ String.intercalate ", " (names.map pyReprStr) ++ "]"

/-- The brace doubling performed by get_tools_description
(src/utils/general/tools.py): replace each opening brace by two and each
closing brace by two. -/
def braceEscape (s : String) : String :=
  String.join (s.data.map (fun c =>
    if c = lbraceChar then String.mk [lbraceChar, lbraceChar]
    else if c = rbraceChar then String.mk [rbraceChar, rbraceChar]
    else String.mk [c]))

/-- Embedding of get_tools_description (src/utils/general/tools.py): the
langchain render_text_description_and_args output (external, hence the
render parameter) with braces doubled. -/
def get_tools_description (render : List Tool → String) (tools : List Tool) : String :=
  braceEscape (render tools)

/-- Text of DEFAULT_SYS_REACT_PROMPT (src/prompt/react_prompt.py) before the
tools_name slot, with the format escapes of the source already decoded. -/
def reactTemplate1 : String :=
  "\n<|begin_of_text|><|start_header_id|>system<|end_header_id|>\n\nEnvironment: ipython\nTools: "

/-- Template text between the tools_name slot and the datetime slot. -/
def reactTemplate2 : String :=
  " \nKnowledge Cutoff Date: December 2023  \nCurrent Date: "

/-- Template text between the datetime slot and the tools_description slot. -/
def reactTemplate3 : String :=
  "\n\nYou are an intelligent assistant designed to handle various tasks, including answering questions, providing summaries, and performing detailed analyses. All outputs must strictly be in JSON format.\n\n---\n\n## Tools\nYou have access to a variety of tools to assist in completing tasks. You are responsible for determining the appropriate sequence of tool usage to break down complex tasks into subtasks when necessary.\n\nThe available tools include:\n\n"

/-- Template text between the tools_description slot and the user_prompt
slot (the doubled braces of the source decode to single braces here). -/
def reactTemplate4 : String :=
  "\n\n---\n\n## Output Format:\nTo complete the task, please use the following format:\n\n\x7b\n  \x22thought\x22: \x22Describe your thought process here, including why a tool may be necessary to proceed.\x22,\n  \x22action\x22: \x22Specify the tool you want to use.\x22,\n  \x22action_input\x22: \x7b # Provide valid JSON input for the action, ensuring it matches the tool’s expected format and data types.\n    \x22key\x22: \x22Value inputs to the tool in valid JSON format.\x22\n  \x7d\n\x7d\n\nAfter performing an action, the tool will provide a response in the following format:\n\n\x7b\n  \x22observation\x22: \x22The result of the tool invocation\x22,\n\x7d\n\nYou should keep repeating the format (thought → action → observation) until you have the answer to the original question. \n\nIf the tool result is successful and the task is complete:\n\n\x7b\n  \x22answer\x22: \x22I have the answer: \x7btool_result\x7d.\x22\n\x7d\n\n\nOr, if you cannot answer:\n\n\x7b\n  \x22answer\x22: \x22Sorry, I cannot answer your query.\x22\n\x7d\n\n---\n\n### Remember:\n- **If a tool provides a complete and clear answer, do not continue invoking further tools.**\n- Use the tools effectively and ensure inputs match the required format exactly as described in the task.\n- Maintain the JSON format and ensure all fields are filled out correctly.\n- Do not include additional metadata such as `title`, `description`, or `type` in the `tool_input`.\n\n<|eot_id|>\n"

/-- Embedding of ReactAgent.write_react_prompt (src/agent/react_agent.py):
DEFAULT_SYS_REACT_PROMPT.format(user_prompt, agent_scratchpad, tools_name,
tools_description, datetime).  The source reads the clock through
get_current_utc_datetime at every call; that reading is the explicit
datetimeNow argument here, and the langchain catalog renderer is the
explicit render argument. -/
def write_react_prompt (render : List Tool → String) (tools : List Tool)
    (datetimeNow : String) (user_prompt : String) (agent_scratchpad : String) : String :=
  reactTemplate1 ++ (pyStrList (get_tools_name tools)
    ++ (reactTemplate2 ++ (datetimeNow
      ++ (reactTemplate3 ++ (get_tools_description render tools
        ++ (reactTemplate4 ++ (user_prompt ++ ("\n" ++ (agent_scratchpad ++ "\n")))))))))

/-- Embedding of ReactAgent.format_scratchpad (src/agent/react_agent.py):
strip each entry, append a newline, concatenate in order. -/
def format_scratchpad (scratchpad : List String) : String :=
  scratchpad.foldl (fun acc entry => acc ++ (pyStrip entry ++ "\n")) ""

/-- Return value of ReactAgent.execute_tool (src/agent/react_agent.py): the
source returns a 2-tuple (status, payload) from inside the loop over
self.tools, but the for/else branch taken when no tool name matches returns
a bare string. -/
inductive ExecRet where
  | tuple (status : Bool) (payload : Json) : ExecRet
  | single (s : String) : ExecRet

/-- Embedding of the tool scan inside ReactAgent.execute_tool
(src/agent/react_agent.py lines 160-170): walk self.tools in order; on the
first tool whose name equals the requested action, invoke it, capturing a
raised exception as (False, error message); when the loop finishes without
a match the for/else branch returns the bare not-found string. -/
def execute_tool (tools : List Tool) (action : Json) (action_input : Json) : ExecRet :=
  match tools with
  | [] => ExecRet.single ("Tool " ++ pyStr action ++ " not found or unsupported operation.")
  | t :: rest =>
      if pyEqStr t.name action then
        match t.invoke action_input with
        | Except.ok r => ExecRet.tuple true r
        | Except.error e =>
            ExecRet.tuple false (Json.str ("Error executing tool " ++ pyStr action ++ ": " ++ e))
      else execute_tool rest action action_input

/-- Python tuple unpacking status, tool_response = execute_tool(...): a
2-tuple unpacks (react never reads status, so only the payload is kept); a
bare string unpacks character-wise, raising ValueError unless its length is
exactly 2.  The Except.error carries str(e) of the ValueError. -/
def unpackExec : ExecRet → Except String Json
  | ExecRet.tuple _ p => Except.ok p
  | ExecRet.single s =>
      match s.data with
      | [] => Except.error "not enough values to unpack (expected 2, got 0)"
      | [_] => Except.error "not enough values to unpack (expected 2, got 1)"
      | [_, b] => Except.ok (Json.str (String.mk [b]))
      | _ => Except.error "too many values to unpack (expected 2)"

/-- One processed model response as it reaches ReactAgent.react: the text
returned by invoke_model together with the outcome of json.loads on it
(json.loads is external; Except.error carries str(e) of the raised
exception).  Universally quantifying over both fields covers every
behaviour of the real decoder. -/
structure RawResp where
  text : String
  parsed : Except String Json

/-- External collaborators of one ReactAgent.react run: the tool list and
the langchain catalog renderer, the successive readings of the UTC clock
consumed by write_react_prompt, and the successive processed model
responses. -/
structure Env where
  tools : List Tool
  render : List Tool → String
  clock : Nat → String
  oracle : Nat → RawResp

/-- The mutable locals of ReactAgent.react that survive an iteration:
user_prompt, sys_prompt, the scratchpad list, tool_response and answer
(both initialised to Python None, hence Json.null), plus the number of
clock readings and model calls made so far. -/
structure ReactState where
  user_prompt : String
  sys_prompt : String
  scratchpad : List String
  tool_response : Json
  answer : Json
  clockIdx : Nat
  callIdx : Nat

/-- The locals of ReactAgent.react just before the while loop
(src/agent/react_agent.py lines 68-82): the user request wrapped in the
user header, the system prompt rendered with an empty scratchpad (one clock
reading), empty scratchpad, tool_response = answer = None. -/
def initState (env : Env) (user_request : String) : ReactState :=
  let up := "<|start_header_id|>user<|end_header_id|>\n\n" ++ user_request ++ "<|eot_id|>"
  { user_prompt := up
    sys_prompt := write_react_prompt env.render env.tools (env.clock 0) up ""
    scratchpad := []
    tool_response := Json.null
    answer := Json.null
    clockIdx := 1
    callIdx := 0 }

/-- The except-branch of the loop body (src/agent/react_agent.py lines
131-138): wrap str(e) in the ipython header, append it to the scratchpad,
re-render the system prompt; answer and user_prompt are untouched. -/
def exceptBranch (env : Env) (st : ReactState) (e : String) : ReactState :=
  let msg := "<|start_header_id|>ipython<|end_header_id|>\n\n" ++ e ++ "<|eot_id|>"
  let scratchpad := st.scratchpad ++ [msg]
  { st with
    scratchpad := scratchpad
    sys_prompt := write_react_prompt env.render env.tools (env.clock st.clockIdx)
      st.user_prompt (format_scratchpad scratchpad)
    clockIdx := st.clockIdx + 1 }

/-- The answer check at the end of the try-branch (src/agent/react_agent.py
lines 128-129): if the key is present, the local answer becomes its value
(possibly None). -/
def answerCheck (st : ReactState) (fields : List (String × Json)) : ReactState :=
  match lookupFirst fields "answer" with
  | some v => { st with answer := v }
  | none => st

/-- Lines 96-105 of the try-branch: wrap the raw response text in the
assistant header, append it to the scratchpad, re-render the system prompt
(one clock reading). -/
def appendAssistant (env : Env) (st : ReactState) (text : String) : ReactState :=
  let assistant := "<|start_header_id|>assistant<|end_header_id|>\n\n" ++ text ++ "<|eot_id|>"
  let scratchpad := st.scratchpad ++ [assistant]
  { st with
    scratchpad := scratchpad
    sys_prompt := write_react_prompt env.render env.tools (env.clock st.clockIdx)
      st.user_prompt (format_scratchpad scratchpad)
    clockIdx := st.clockIdx + 1 }

/-- The message of the AttributeError raised by response_dict.get when
json.loads produced a non-dict value. -/
def attrErrMsg (other : Json) : String :=
  String.mk [aposChar] ++ pyTypeName other ++ String.mk [aposChar]
    ++ " object has no attribute " ++ String.mk [aposChar] ++ "get" ++ String.mk [aposChar]

/-- Lines 107-129 of the try-branch, reached when json.loads produced a
dict: read action and action_input with dict.get; if action is truthy,
unpack the return of execute_tool (the ValueError raised when the for/else
branch returned a bare string lands in the except branch), pretty-print
the observation wrapper and make it the next user prompt; finally consume
answer if the key is present. -/
def dispatchAnswer (env : Env) (st : ReactState) (fields : List (String × Json)) : ReactState :=
  if jsonTruthy (pyGet fields "action") then
    match unpackExec (execute_tool env.tools (pyGet fields "action") (pyGet fields "action_input")) with
    | Except.error e => exceptBranch env st e
    | Except.ok tr =>
        answerCheck
          { st with
            tool_response := tr
            user_prompt := dumps (Json.obj [("observation", tr)]) 0 }
          fields
  else answerCheck st fields

/-- The try-branch after a successful json.loads: append the assistant
turn first (so it is in the scratchpad even if what follows raises), then
either dispatch on a dict or land in the except branch with the
AttributeError from .get on a non-dict. -/
def okBranch (env : Env) (st : ReactState) (text : String) : Json → ReactState
  | Json.obj fields => dispatchAnswer env (appendAssistant env st text) fields
  | other => exceptBranch env (appendAssistant env st text) (attrErrMsg other)

/-- One execution of the while-loop body of ReactAgent.react
(src/agent/react_agent.py lines 85-138): call the model (advancing the
model-call counter), json.loads the response; on decode failure take the
except branch, otherwise the try-branch. -/
def reactStep (env : Env) (st : ReactState) : ReactState :=
  match (env.oracle st.callIdx).parsed with
  | Except.error e => exceptBranch env { st with callIdx := st.callIdx + 1 } e
  | Except.ok j => okBranch env { st with callIdx := st.callIdx + 1 } (env.oracle st.callIdx).text j

/-- The while loop of ReactAgent.react, with explicit fuel: while the
answer local is None run the body, otherwise return the final dict (the
answer value and str(tool_response)); none models a run that has not
terminated within the given fuel. -/
def loopRun (env : Env) : Nat → ReactState → Option (Json × String)
  | 0, _ => none
  | fuel + 1, st =>
      if st.answer.isNull then loopRun env fuel (reactStep env st)
      else some (st.answer, pyStr st.tool_response)

/-- Embedding of ReactAgent.react (src/agent/react_agent.py lines 63-144):
initialise the locals and run the loop. -/
def react (env : Env) (user_request : String) (fuel : Nat) : Option (Json × String) :=
  loopRun env fuel (initState env user_request)

/-- The loop state reached after n executed iterations of one react run
(frozen once the loop condition fails, i.e. once answer is not None). -/
def stateAfter (env : Env) (user_request : String) : Nat → ReactState
  | 0 => initState env user_request
  | n + 1 =>
      let st := stateAfter env user_request n
      if st.answer.isNull then reactStep env st else st

/-- Embedding of ModelService.process_model_response
(src/services/model_service.py lines 61-68): json.loads the value of the
response key (default the two-character brace string), pretty-print the
decoded value; a JSONDecodeError is caught and mapped to the sentinel
text, but json.loads raises an uncaught TypeError when handed a non-string
value.  The external json.loads is the loads parameter; an Except.error
result models an exception escaping the method. -/
def process_model_response (loads : String → Except String Json)
    (response_json : List (String × Json)) : Except String String :=
  match (lookupFirst response_json "response").getD (Json.str "\x7b\x7d") with
  | Json.str s =>
      match loads s with
      | Except.ok content => Except.ok (dumps content 0)
      | Except.error _ => Except.ok "Error processing the response"
  | v => Except.error ("the JSON object must be str, bytes or bytearray, not " ++ pyTypeName v)

/-- Embedding of run_workflow (src/state/state_graph.py lines 35-64): build
the input dict and the recursion-limit dict, compile the graph with the
checkpointer and stream it; compile-and-stream is the external langgraph
machinery, passed as one function.  Exactly as in the source, the limit
dict is built from the iterations argument but never handed to stream:
only config is. -/
def run_workflow {G M C R : Type} (compileStream : G → M → List (String × String) → C → R)
    (graph : G) (input_query : String) (config : C) (memory : M) (iterations : Nat) : R :=
  let dict_inputs := [("input", input_query)]
  let _limit : List (String × Nat) := [("recursion_limit", iterations)]
  compileStream graph memory dict_inputs config

/-- The echo tool of the spec scenario: echo(x) -> x. -/
def toolEcho : Tool :=
  { name := "echo"
    invoke := fun inp =>
      match inp with
      | Json.obj fs =>
          match lookupFirst fs "x" with
          | some v => Except.ok v
          | none => Except.error "missing x"
      | _ => Except.error "bad input" }

/-- A fixed catalog renderer standing for the external langchain function. -/
def renderFixed : List Tool → String := fun _ => "tool catalog"

/-- A constant clock for concrete runs. -/
def clockFixed : Nat → String := fun _ => "2024-01-01 00:00:00.000 UTC"

/-- Environment with the given tools, the fixed renderer and clock, and an
oracle that replays the given responses (and afterwards repeats the last). -/
def envOf (tools : List Tool) (resps : List RawResp) (fallback : RawResp) : Env :=
  { tools := tools
    render := renderFixed
    clock := clockFixed
    oracle := fun n => resps.getD n fallback }

/-- Model response requesting the echo tool on x = hi. -/
def respEchoAction : RawResp :=
  { text := "\x7b\x22action\x22: \x22echo\x22, \x22action_input\x22: \x7b\x22x\x22: \x22hi\x22\x7d\x7d"
    parsed := Except.ok (Json.obj
      [("action", Json.str "echo"), ("action_input", Json.obj [("x", Json.str "hi")])]) }

/-- Model response carrying only the final answer hi. -/
def respAnswerHi : RawResp :=
  { text := "\x7b\x22answer\x22: \x22hi\x22\x7d"
    parsed := Except.ok (Json.obj [("answer", Json.str "hi")]) }

/-- Model response carrying the answer hi together with an action naming
the unregistered tool ghost. -/
def respAnswerAndGhost : RawResp :=
  { text := "\x7b\x22answer\x22: \x22hi\x22, \x22action\x22: \x22ghost\x22\x7d"
    parsed := Except.ok (Json.obj [("answer", Json.str "hi"), ("action", Json.str "ghost")]) }

/-- Model response with neither action nor answer. -/
def respThought : RawResp :=
  { text := "\x7b\x22thought\x22: \x22t\x22\x7d"
    parsed := Except.ok (Json.obj [("thought", Json.str "t")]) }

/-- Model output that is not JSON: json.loads raises. -/
def respMalformed : RawResp :=
  { text := "not json"
    parsed := Except.error "Expecting value: line 1 column 1 (char 0)" }

/-- The spec example scenario environment: registry has echo; the model
emits the echo action and then the answer. -/
def envEcho : Env := envOf [toolEcho] [respEchoAction, respAnswerHi] respThought

/-- Environment whose first response carries both answer and an
unregistered action, then the answer bye. -/
def envGhost : Env :=
  envOf [toolEcho] [respAnswerAndGhost,
    { text := "\x7b\x22answer\x22: \x22bye\x22\x7d"
      parsed := Except.ok (Json.obj [("answer", Json.str "bye")]) }] respThought

/-- Environment whose model never emits an answer. -/
def envNoAnswer : Env := envOf [toolEcho] [] respThought

/-- Environment whose single model response carries the answer hi and an
action that does resolve (the registered echo tool). -/
def envAnswerEcho : Env :=
  envOf [toolEcho]
    [{ text := "\x7b\x22answer\x22: \x22hi\x22, \x22action\x22: \x22echo\x22, \x22action_input\x22: \x7b\x22x\x22: \x22ok\x22\x7d\x7d"
       parsed := Except.ok (Json.obj
         [("answer", Json.str "hi"), ("action", Json.str "echo"),
          ("action_input", Json.obj [("x", Json.str "ok")])]) }]
    respThought

/-- Scratchpad entry produced by the model (assistant header). -/
def isModelTurn (s : String) : Bool :=
  List.isPrefixOf ("<|start_header_id|>assistant<|end_header_id|>").data s.data

/-- Scratchpad entry with the ipython header: this is how the source marks
both the observation message it prints (but never appends) and the error
turns it appends. -/
def isObservationTurn (s : String) : Bool :=
  List.isPrefixOf ("<|start_header_id|>ipython<|end_header_id|>").data s.data

/-- Model response requesting only the unregistered tool ghost. -/
def respGhostAction : RawResp :=
  { text := "\x7b\x22action\x22: \x22ghost\x22\x7d"
    parsed := Except.ok (Json.obj [("action", Json.str "ghost")]) }

/-- Environment with an empty tool registry whose model requests ghost. -/
def envUnregistered : Env := envOf [] [respGhostAction] respThought

/-- Environment whose first model output is the malformed text of the
spec example scenario. -/
def envMalformed : Env := envOf [toolEcho] [respMalformed, respAnswerHi] respThought

/-- Tool named dup answering first. -/
def toolDupFirst : Tool := { name := "dup", invoke := fun _ => Except.ok (Json.str "first") }

/-- Second tool with the identical name dup, answering second. -/
def toolDupSecond : Tool := { name := "dup", invoke := fun _ => Except.ok (Json.str "second") }

/-- Tool with an unrelated name. -/
def toolOther : Tool := { name := "other", invoke := fun _ => Except.ok (Json.str "o") }

/-- The attributes stored by ReactAgent.__init__ (src/agent/react_agent.py
lines 13-20): the shared graph state, the role, the tool list and the
model service handle (opaque here). -/
structure ReactAgent where
  state : List (String × Json)
  role : String
  tools : List Tool
  ollama_service : Unit

/-- Embedding of ReactAgent.__init__: plain attribute assignment, with no
validation of the tool list whatsoever. -/
def ReactAgent.make (state : List (String × Json)) (role : String) (tools : List Tool)
    (svc : Unit) : ReactAgent :=
  ⟨state, role, tools, svc⟩

/-- Tool whose capability always raises. -/
def toolBoom : Tool := { name := "boom", invoke := fun _ => Except.error "kaboom" }

/-- A json.loads stand-in that fails on every input. -/
def loadsNone : String → Except String Json :=
  fun _ => Except.error "Expecting value: line 1 column 1 (char 0)"

/-- A json.loads stand-in that decodes the empty object and fails on
everything else. -/
def loadsW : String → Except String Json :=
  fun s => if s = "\x7b\x7d" then Except.ok (Json.obj [])
    else Except.error "Expecting value: line 1 column 1 (char 0)"

example : pyStrip "  a b \n" = "a b" := by decide
example : dumps (Json.obj [("observation", Json.str "hi")]) 0
    = "\x7b\n    \x22observation\x22: \x22hi\x22\n\x7d" := by decide
example : react envEcho "q" 3 = some (Json.str "hi", "hi") := by rfl
example : (stateAfter envEcho "q" 2).scratchpad.length = 2 := by rfl
example : (reactStep envGhost (initState envGhost "q")).answer = Json.null := by rfl
example : react envGhost "q" 3 = some (Json.str "bye", "None") := by rfl
example : react envNoAnswer "q" 5 = none := by rfl

/-- A value that is not None has isNull false. -/
lemma isNull_eq_false {v : Json} (h : v ≠ Json.null) : v.isNull = false := by
  cases v <;> simp_all [Json.isNull]

/-- Scanning tools whose names all differ from the requested one reaches
the rest of the list unchanged. -/
lemma execute_tool_skip (pre rest : List Tool) (s : String) (inp : Json)
    (hpre : ∀ u ∈ pre, u.name ≠ s) :
    execute_tool (pre ++ rest) (Json.str s) inp = execute_tool rest (Json.str s) inp := by
  induction pre with
  | nil => rfl
  | cons u us ih =>
      have hu : u.name ≠ s := hpre u (List.mem_cons_self u us)
      simp only [List.cons_append, execute_tool, pyEqStr, hu, decide_False,
        Bool.false_eq_true, if_false]
      exact ih fun w hw => hpre w (List.mem_cons_of_mem u hw)

/-- A tool at the head of the scan whose name matches is invoked. -/
lemma execute_tool_cons_match (t : Tool) (rest : List Tool) (s : String) (inp : Json)
    (hname : t.name = s) :
    execute_tool (t :: rest) (Json.str s) inp
      = match t.invoke inp with
        | Except.ok r => ExecRet.tuple true r
        | Except.error e =>
            ExecRet.tuple false (Json.str ("Error executing tool " ++ s ++ ": " ++ e)) := by
  simp only [execute_tool, pyEqStr, hname]
  rw [if_pos]
  · simp [pyStr]
  · simp [hname]

/-- A registered name always resolves to a tuple return. -/
lemma execute_tool_mem_tuple (tools : List Tool) (s : String) (inp : Json)
    (h : ∃ t ∈ tools, t.name = s) :
    ∃ b p, execute_tool tools (Json.str s) inp = ExecRet.tuple b p := by
  induction tools with
  | nil => rcases h with ⟨t, ht, _⟩; cases ht
  | cons u us ih =>
      by_cases hu : u.name = s
      · cases hinv : u.invoke inp with
        | error e =>
            exact ⟨false, _, by rw [execute_tool_cons_match u us s inp hu, hinv]⟩
        | ok r =>
            exact ⟨true, r, by rw [execute_tool_cons_match u us s inp hu, hinv]⟩
      · simp only [execute_tool, pyEqStr, hu, decide_False, Bool.false_eq_true, if_false]
        apply ih
        rcases h with ⟨t, ht, hn⟩
        rcases List.mem_cons.mp ht with rfl | hmem
        · exact absurd hn hu
        · exact ⟨t, hmem, hn⟩

/-- Claim C1, as stated, is refuted here: the first model response parses
as a JSON object containing the key answer (value hi) together with an
action naming an unregistered tool, yet the iteration leaves the answer
local at None — the bare-string return of the for/else branch of
execute_tool makes the tuple unpacking raise before the answer check — so
the loop keeps running and the run finally returns the later answer bye,
not hi. -/
theorem react_answer_with_unknown_action_not_terminating :
    (envGhost.oracle 0).parsed
        = Except.ok (Json.obj [("answer", Json.str "hi"), ("action", Json.str "ghost")])
      ∧ (reactStep envGhost (initState envGhost "q")).answer = Json.null
      ∧ react envGhost "q" 3 = some (Json.str "bye", "None")
      ∧ Json.str "bye" ≠ Json.str "hi" := by
  refine ⟨rfl, rfl, rfl, ?_⟩
  simp

/-- Claim C1 amended: for every model response that parses as a JSON
object containing the key answer with a non-None value, the react loop
terminates on that same iteration and returns that value as the final
answer, provided that any truthy action in the same response names a
registered tool; with an unregistered action name the dispatch slip raises
before the answer check and the loop continues instead. -/
theorem react_answer_terminates_when_action_resolves (env : Env) (st : ReactState)
    (fields : List (String × Json)) (v : Json)
    (hresp : (env.oracle st.callIdx).parsed = Except.ok (Json.obj fields))
    (hans : lookupFirst fields "answer" = some v)
    (hv : v ≠ Json.null)
    (hact : jsonTruthy (pyGet fields "action") = true →
      ∃ s, pyGet fields "action" = Json.str s ∧ ∃ t ∈ env.tools, t.name = s) :
    (reactStep env st).answer = v
    ∧ ∀ fuel, loopRun env (fuel + 1) (reactStep env st)
        = some (v, pyStr (reactStep env st).tool_response) := by
  have hstep : (reactStep env st).answer = v := by
    rw [reactStep, hresp]
    simp only [okBranch, dispatchAnswer]
    by_cases htru : jsonTruthy (pyGet fields "action") = true
    · rcases hact htru with ⟨s, hs, hmem⟩
      rcases execute_tool_mem_tuple env.tools s
          (pyGet fields "action_input") hmem with ⟨b, p, hexec⟩
      rw [htru, if_pos rfl, hs, hexec]
      simp only [unpackExec, answerCheck, hans]
    · rw [eq_false_of_ne_true htru]
      simp only [Bool.false_eq_true, if_false, answerCheck, hans]
  refine ⟨hstep, fun fuel => ?_⟩
  unfold loopRun
  rw [hstep, isNull_eq_false hv]
  rfl

/-- Witness for the amended claim C1 at a concrete input: answer hi
together with a resolvable echo action terminates the loop on that
iteration with final answer hi. -/
theorem react_answer_terminates_when_action_resolves_witness :
    (reactStep envAnswerEcho (initState envAnswerEcho "q")).answer = Json.str "hi" :=
  (react_answer_terminates_when_action_resolves envAnswerEcho
    (initState envAnswerEcho "q")
    [("answer", Json.str "hi"), ("action", Json.str "echo"),
     ("action_input", Json.obj [("x", Json.str "ok")])]
    (Json.str "hi") rfl rfl (by simp)
    (fun _ => ⟨"echo", rfl, toolEcho, List.mem_cons_self toolEcho [], rfl⟩)).1

/-- Claim C2, as stated, is refuted here: in the two-turn echo scenario
the loop does return hi, but the final scratchpad holds the two model
turns and no observation turn at all — the observation wrapper is printed
and becomes the next user prompt, it is never appended to the scratchpad. -/
theorem echo_scenario_observation_turn_count :
    react envEcho "q" 3 = some (Json.str "hi", "hi")
    ∧ (stateAfter envEcho "q" 2).scratchpad.countP isModelTurn = 2
    ∧ (stateAfter envEcho "q" 2).scratchpad.countP isObservationTurn = 0 :=
  ⟨rfl, rfl, rfl⟩

/-- Claim C2 amended: on a dispatch iteration the tool outcome wrapped as
an observation object is pretty-printed and becomes the next user-turn
input, not a scratchpad entry; in the two-turn echo scenario the loop
returns hi and the final scratchpad holds exactly the two model turns (and
zero observation turns), while the observation JSON is the pending user
prompt from the dispatch iteration on. -/
theorem echo_scenario_observation_as_user_prompt :
    react envEcho "q" 3 = some (Json.str "hi", "hi")
    ∧ (stateAfter envEcho "q" 2).scratchpad
        = ["<|start_header_id|>assistant<|end_header_id|>\n\n" ++ respEchoAction.text ++ "<|eot_id|>",
           "<|start_header_id|>assistant<|end_header_id|>\n\n" ++ respAnswerHi.text ++ "<|eot_id|>"]
    ∧ (stateAfter envEcho "q" 1).user_prompt = "\x7b\n    \x22observation\x22: \x22hi\x22\n\x7d"
    ∧ (stateAfter envEcho "q" 2).user_prompt = "\x7b\n    \x22observation\x22: \x22hi\x22\n\x7d" :=
  ⟨rfl, rfl, rfl, rfl⟩

/-- Claim C3 against the code: when the requested action matches no
registered tool, the for/else branch of execute_tool returns the bare
not-found string instead of a (status, payload) tuple; unpacking it raises
ValueError, so the iteration appends the ValueError text as the error
turn — the model is never shown the unsupported-tool message (the claimed
observation), though no exception escapes the loop and it continues
(answer stays None). -/
theorem unresolvable_tool_raises_valueerror :
    execute_tool [] (Json.str "ghost") Json.null
        = ExecRet.single "Tool ghost not found or unsupported operation."
    ∧ unpackExec (execute_tool [] (Json.str "ghost") Json.null)
        = Except.error "too many values to unpack (expected 2)"
    ∧ (reactStep envUnregistered (initState envUnregistered "q")).scratchpad
        = ["<|start_header_id|>assistant<|end_header_id|>\n\n" ++ respGhostAction.text ++ "<|eot_id|>",
           "<|start_header_id|>ipython<|end_header_id|>\n\ntoo many values to unpack (expected 2)<|eot_id|>"]
    ∧ (reactStep envUnregistered (initState envUnregistered "q")).answer = Json.null :=
  ⟨rfl, rfl, rfl, rfl⟩

/-- Claim C4: a model output on which json.loads raises does not crash the
loop: that iteration appends exactly one entry, the error turn carrying
the exception text, consumes no answer, leaves the pending user prompt and
the last tool response untouched, and advances to the next model call. -/
theorem malformed_response_single_error_turn (env : Env) (st : ReactState) (e : String)
    (h : (env.oracle st.callIdx).parsed = Except.error e) :
    (reactStep env st).scratchpad
        = st.scratchpad ++ ["<|start_header_id|>ipython<|end_header_id|>\n\n" ++ e ++ "<|eot_id|>"]
    ∧ (reactStep env st).answer = st.answer
    ∧ (reactStep env st).user_prompt = st.user_prompt
    ∧ (reactStep env st).tool_response = st.tool_response
    ∧ (reactStep env st).callIdx = st.callIdx + 1 := by
  rw [reactStep, h]
  exact ⟨rfl, rfl, rfl, rfl, rfl⟩

/-- Witness for claim C4: the malformed first output of the example
scenario appends exactly the one error turn and consumes nothing. -/
theorem malformed_response_single_error_turn_witness :
    (reactStep envMalformed (initState envMalformed "q")).scratchpad
        = (initState envMalformed "q").scratchpad
          ++ ["<|start_header_id|>ipython<|end_header_id|>\n\nExpecting value: line 1 column 1 (char 0)<|eot_id|>"]
    ∧ (reactStep envMalformed (initState envMalformed "q")).answer
        = (initState envMalformed "q").answer
    ∧ (reactStep envMalformed (initState envMalformed "q")).user_prompt
        = (initState envMalformed "q").user_prompt
    ∧ (reactStep envMalformed (initState envMalformed "q")).tool_response
        = (initState envMalformed "q").tool_response
    ∧ (reactStep envMalformed (initState envMalformed "q")).callIdx
        = (initState envMalformed "q").callIdx + 1 :=
  malformed_response_single_error_turn envMalformed (initState envMalformed "q")
    "Expecting value: line 1 column 1 (char 0)" rfl

/-- Under the never-answering oracle one loop body leaves the answer local
untouched. -/
lemma noAnswer_step_answer (st : ReactState) :
    (reactStep envNoAnswer st).answer = st.answer := rfl

/-- Under the never-answering oracle the loop never leaves its while
condition, whatever the fuel. -/
lemma noAnswer_loop : ∀ (n : Nat) (st : ReactState), st.answer = Json.null →
    loopRun envNoAnswer n st = none := by
  intro n
  induction n with
  | zero => intro st _; rfl
  | succ n ih =>
      intro st h
      have hs : (reactStep envNoAnswer st).answer = Json.null := by
        rw [noAnswer_step_answer, h]
      unfold loopRun
      rw [h]
      exact ih _ hs

/-- Claim C5 against the code: run_workflow builds the recursion-limit
dict from its iterations argument but never passes it to stream — only
config is passed — so the run result is entirely independent of the
configured ceiling; and a react loop fed an oracle that never emits an
answer simply never terminates, rather than failing with a step-limit
error at the configured limit. -/
theorem step_limit_not_enforced :
    (∀ (cs : Unit → Unit → List (String × String) → Unit → Nat) (g c m : Unit)
        (q : String) (i j : Nat),
        run_workflow cs g q c m i = run_workflow cs g q c m j)
    ∧ (∀ fuel, react envNoAnswer "q" fuel = none) := by
  constructor
  · intro cs g c m q i j; rfl
  · intro fuel; exact noAnswer_loop fuel (initState envNoAnswer "q") rfl

/-- Renderings of the system prompt differing only in the clock reading
differ as strings, because the reading is interpolated verbatim. -/
lemma write_react_prompt_datetime_inj (render : List Tool → String) (tools : List Tool)
    (up sp : String) {d1 d2 : String}
    (h : write_react_prompt render tools d1 up sp = write_react_prompt render tools d2 up sp) :
    d1 = d2 := by
  have hd := congrArg String.data h
  simp only [write_react_prompt, String.data_append] at hd
  have h1 := List.append_cancel_left hd
  have h2 := List.append_cancel_left h1
  have h3 := List.append_cancel_left h2
  exact String.ext (List.append_cancel_right h3)

/-- Claim C6, as stated, is refuted here: two renderings with the same
user prompt, the same (empty) tool set and identical scratchpad contents,
taken at clock readings one millisecond apart, are not byte-identical —
write_react_prompt interpolates the current UTC datetime read inside the
call. -/
theorem write_react_prompt_differs_across_clock :
    write_react_prompt renderFixed [] "2024-01-01 00:00:00.000 UTC" "u" ""
      ≠ write_react_prompt renderFixed [] "2024-01-01 00:00:00.001 UTC" "u" "" :=
  fun h =>
    absurd (write_react_prompt_datetime_inj renderFixed [] "u" "" h) (by decide)

/-- Claim C6 amended: prompt rendering is a pure function of its inputs
together with the UTC clock reading taken during the call: with the same
user prompt, tool set and scratchpad, two renderings are byte-identical
exactly when their clock readings coincide. -/
theorem write_react_prompt_byte_identical_iff_same_clock
    (render : List Tool → String) (tools : List Tool) (up sp d1 d2 : String) :
    write_react_prompt render tools d1 up sp = write_react_prompt render tools d2 up sp
      ↔ d1 = d2 :=
  ⟨write_react_prompt_datetime_inj render tools up sp, fun h => by rw [h]⟩

/-- Claim C7, as stated, is refuted here: constructing the agent with two
tools of the identical name dup succeeds and stores both (there is no
DuplicateNameError anywhere in the code), and resolution silently uses
the first matching tool, shadowing the second. -/
theorem duplicate_tool_names_accepted_and_shadowed :
    (ReactAgent.make [] "agent" [toolDupFirst, toolDupSecond] ()).tools
        = [toolDupFirst, toolDupSecond]
    ∧ toolDupFirst.name = toolDupSecond.name
    ∧ execute_tool [toolDupFirst, toolDupSecond] (Json.str "dup") Json.null
        = ExecRet.tuple true (Json.str "first")
    ∧ ExecRet.tuple true (Json.str "first") ≠ ExecRet.tuple true (Json.str "second") := by
  refine ⟨rfl, rfl, rfl, ?_⟩
  simp

/-- Claim C7 amended: duplicate tool names are neither rejected at
construction time nor at resolution time; execute_tool scans the stored
list in order and invokes the first tool whose name matches the requested
action, so an earlier tool silently shadows any later tool of the same
name (the result does not depend on what follows the first match). -/
theorem execute_tool_resolves_first_match (pre : List Tool) (t : Tool) (post : List Tool)
    (s : String) (inp : Json) (hname : t.name = s) (hpre : ∀ u ∈ pre, u.name ≠ s) :
    execute_tool (pre ++ t :: post) (Json.str s) inp
      = match t.invoke inp with
        | Except.ok r => ExecRet.tuple true r
        | Except.error e =>
            ExecRet.tuple false (Json.str ("Error executing tool " ++ s ++ ": " ++ e)) := by
  rw [execute_tool_skip pre (t :: post) s inp hpre,
    execute_tool_cons_match t post s inp hname]

/-- Witness for the amended claim C7: with two tools named dup (and an
unrelated tool before them) the scan returns the first dup tool's result. -/
theorem execute_tool_resolves_first_match_witness :
    execute_tool [toolOther, toolDupFirst, toolDupSecond] (Json.str "dup") Json.null
      = ExecRet.tuple true (Json.str "first") :=
  execute_tool_resolves_first_match [toolOther] toolDupFirst [toolDupSecond] "dup" Json.null
    rfl (fun u hu => by rcases List.mem_singleton.mp hu with rfl; decide)

/-- Claim C8: when the first tool matching the requested action raises,
execute_tool returns a failed (status False) outcome whose payload is an
error message naming the tool, and the caller's unpacking accepts it, so
no exception leaves the dispatch step. -/
theorem tool_exception_captured_as_failed_outcome (pre : List Tool) (t : Tool)
    (post : List Tool) (s : String) (inp : Json) (e : String) (hname : t.name = s)
    (hpre : ∀ u ∈ pre, u.name ≠ s) (herr : t.invoke inp = Except.error e) :
    execute_tool (pre ++ t :: post) (Json.str s) inp
        = ExecRet.tuple false (Json.str ("Error executing tool " ++ s ++ ": " ++ e))
    ∧ unpackExec (execute_tool (pre ++ t :: post) (Json.str s) inp)
        = Except.ok (Json.str ("Error executing tool " ++ s ++ ": " ++ e)) := by
  have hx : execute_tool (pre ++ t :: post) (Json.str s) inp
      = ExecRet.tuple false (Json.str ("Error executing tool " ++ s ++ ": " ++ e)) := by
    rw [execute_tool_skip pre (t :: post) s inp hpre,
      execute_tool_cons_match t post s inp hname, herr]
  exact ⟨hx, by rw [hx]; rfl⟩

/-- Witness for claim C8: the raising tool boom yields the failed outcome
naming boom, and unpacking it succeeds. -/
theorem tool_exception_captured_as_failed_outcome_witness :
    execute_tool [toolBoom] (Json.str "boom") Json.null
        = ExecRet.tuple false (Json.str "Error executing tool boom: kaboom")
    ∧ unpackExec (execute_tool [toolBoom] (Json.str "boom") Json.null)
        = Except.ok (Json.str "Error executing tool boom: kaboom") :=
  tool_exception_captured_as_failed_outcome [] toolBoom [] "boom" Json.null "kaboom"
    rfl (fun u hu => absurd hu (List.not_mem_nil u)) rfl

/-- A list extension step composes. -/
lemma extends_trans {α : Type} {a b c : List α} :
    (∃ t, b = a ++ t) → (∃ t, c = b ++ t) → ∃ t, c = a ++ t := by
  rintro ⟨t1, h1⟩ ⟨t2, h2⟩
  exact ⟨t1 ++ t2, by rw [h2, h1, List.append_assoc]⟩

/-- The answer check never touches the scratchpad. -/
lemma answerCheck_scratchpad (st : ReactState) (fields : List (String × Json)) :
    (answerCheck st fields).scratchpad = st.scratchpad := by
  unfold answerCheck
  split <;> rfl

/-- Every branch of one loop body only appends to the scratchpad. -/
lemma reactStep_scratchpad_extends (env : Env) (st : ReactState) :
    ∃ tail, (reactStep env st).scratchpad = st.scratchpad ++ tail := by
  rw [reactStep]
  cases (env.oracle st.callIdx).parsed with
  | error e => exact ⟨_, rfl⟩
  | ok j =>
      cases j with
      | obj fields =>
          simp only [okBranch, dispatchAnswer]
          split
          · split
            · exact extends_trans ⟨_, rfl⟩ ⟨_, rfl⟩
            · rw [answerCheck_scratchpad]
              exact ⟨_, rfl⟩
          · rw [answerCheck_scratchpad]
            exact ⟨_, rfl⟩
      | null => exact extends_trans ⟨_, rfl⟩ ⟨_, rfl⟩
      | bool b => exact extends_trans ⟨_, rfl⟩ ⟨_, rfl⟩
      | num n => exact extends_trans ⟨_, rfl⟩ ⟨_, rfl⟩
      | str s => exact extends_trans ⟨_, rfl⟩ ⟨_, rfl⟩
      | arr xs => exact extends_trans ⟨_, rfl⟩ ⟨_, rfl⟩

/-- Claim C9: within one react invocation the scratchpad is append-only —
the scratchpad after any later iteration is the scratchpad after any
earlier iteration followed by some tail, so every appended entry keeps its
content and position until the loop returns. -/
theorem scratchpad_append_only (env : Env) (req : String) (i j : Nat) (hij : i ≤ j) :
    ∃ tail, (stateAfter env req j).scratchpad = (stateAfter env req i).scratchpad ++ tail := by
  induction j with
  | zero =>
      have h0 : i = 0 := Nat.le_zero.mp hij
      subst h0
      exact ⟨[], by simp⟩
  | succ n ih =>
      by_cases hin : i ≤ n
      · have hprev := ih hin
        simp only [stateAfter]
        split
        · exact extends_trans hprev (reactStep_scratchpad_extends env _)
        · exact hprev
      · have hi : i = n + 1 := by omega
        subst hi
        exact ⟨[], by simp⟩

/-- Witness for claim C9 on the echo scenario: the scratchpad after two
iterations extends the initial (empty) scratchpad. -/
theorem scratchpad_append_only_witness :
    (0 : Nat) ≤ 2
    ∧ ∃ tail, (stateAfter envEcho "q" 2).scratchpad
        = (stateAfter envEcho "q" 0).scratchpad ++ tail :=
  ⟨by decide, scratchpad_append_only envEcho "q" 0 2 (by decide)⟩

/-- Claim C10, as stated, is refuted here: process_model_response is not
total — handed a response whose response value is the number 5 rather
than a string, json.loads raises TypeError, which the except clause
(catching only json.JSONDecodeError) does not intercept, so the exception
escapes the method. -/
theorem process_model_response_raises_on_nonstring_value :
    process_model_response loadsNone [("response", Json.num 5)]
      = Except.error "the JSON object must be str, bytes or bytearray, not int" := rfl

/-- Claim C10 amended: process_model_response never raises on inputs whose
response value is absent or a string: when the key is absent it returns
the pretty-printed empty object, when the value is a string that fails to
decode it returns the sentinel text, and when the value is a string that
decodes it returns the pretty-printed decoded value; only a non-string
response value raises (an uncaught TypeError). -/
theorem process_model_response_on_string_or_absent
    (loads : String → Except String Json) (rj : List (String × Json))
    (hbrace : loads "\x7b\x7d" = Except.ok (Json.obj [])) :
    (lookupFirst rj "response" = none →
      process_model_response loads rj = Except.ok "\x7b\x7d")
    ∧ (∀ s e, lookupFirst rj "response" = some (Json.str s) → loads s = Except.error e →
        process_model_response loads rj = Except.ok "Error processing the response")
    ∧ (∀ s c, lookupFirst rj "response" = some (Json.str s) → loads s = Except.ok c →
        process_model_response loads rj = Except.ok (dumps c 0)) := by
  refine ⟨?_, ?_, ?_⟩
  · intro habs
    unfold process_model_response
    rw [habs]
    simp only [Option.getD_none, hbrace]
    rfl
  · intro s e hs hl
    unfold process_model_response
    rw [hs]
    simp only [Option.getD_some, hl]
  · intro s c hs hl
    unfold process_model_response
    rw [hs]
    simp only [Option.getD_some, hl]

/-- Witness for the amended claim C10 at concrete inputs: a dict without
the response key yields the empty object text, and a dict whose response
is undecodable text yields the sentinel. -/
theorem process_model_response_on_string_or_absent_witness :
    process_model_response loadsW [("other", Json.null)] = Except.ok "\x7b\x7d"
    ∧ process_model_response loadsW [("response", Json.str "oops")]
        = Except.ok "Error processing the response" :=
  ⟨(process_model_response_on_string_or_absent loadsW [("other", Json.null)] rfl).1 rfl,
   (process_model_response_on_string_or_absent loadsW [("response", Json.str "oops")] rfl).2.1
     "oops" "Expecting value: line 1 column 1 (char 0)" rfl rfl⟩
